import Mathlib

/-!
# SigSRF shared configuration header (shared_includes/config.h)

A shallow embedding of the two packed configuration records GLOBAL_CONFIG and
DEBUG_CONFIG and of the flag vocabularies declared next to them.

* A record is the list of its member declarations, in declaration order, one list
  per branch of the header's `#ifdef __BIG_ENDIAN__` blocks.
* Bit-fields are packed into 32-bit storage units the way C compilers do for
  `uint32_t` bit-fields: a little-endian target allocates a unit from its least
  significant bit upwards, a big-endian target from its most significant bit
  downwards.
* Machine integers are natural numbers; a store into a field of `n` bits keeps the
  value modulo `2 ^ n`.
-/

namespace Config

/-! ## Bit-field layout -/

/-- Field order of the target: the `__BIG_ENDIAN__` branch or the `#else` branch. -/
inductive Endian where
  | big
  | little
  deriving DecidableEq, Repr

/-- One member declaration `uint32_t name : bits;` (`some bits`) or `uint32_t name;` (`none`). -/
structure Member (F : Type) where
  name : F
  bits : Option Nat
  deriving Repr

/-- Where a member lives: index of its 32-bit storage unit, position of its least
significant bit inside the unit, and its width. -/
structure Slot (F : Type) where
  name : F
  word : Nat
  lsb : Nat
  width : Nat
  deriving DecidableEq, Repr

/-- Position of the least significant bit of a bit-field of `w` bits placed in a unit in
which `used` bits are already taken. -/
def place : Endian → Nat → Nat → Nat
  | Endian.little, used, _ => used
  | Endian.big, used, w => 32 - (used + w)

/-- Number of bits a member occupies. -/
def Member.width {F : Type} (m : Member F) : Nat := m.bits.getD 32

/-- Allocation of the members to storage units. `word` is the unit being filled and `used`
the number of its bits already taken. A plain member takes a fresh unit of its own; a
bit-field goes into the current unit when it fits and opens the next unit otherwise. -/
def layoutAux {F : Type} (e : Endian) : List (Member F) → Nat → Nat → List (Slot F)
  | [], _, _ => []
  | m :: ms, word, used =>
    match m.bits with
    | none =>
      let w := if used = 0 then word else word + 1
      ⟨m.name, w, 0, 32⟩ :: layoutAux e ms (w + 1) 0
    | some b =>
      if used + b ≤ 32 then
        ⟨m.name, word, place e used b, b⟩ :: layoutAux e ms word (used + b)
      else
        ⟨m.name, word + 1, place e 0 b, b⟩ :: layoutAux e ms (word + 1) b

/-- Layout of a record. -/
def layout {F : Type} (e : Endian) (ms : List (Member F)) : List (Slot F) :=
  layoutAux e ms 0 0

/-- Number of storage units the allocation has opened. -/
def sizeAux {F : Type} : List (Member F) → Nat → Nat → Nat
  | [], word, used => if used = 0 then word else word + 1
  | m :: ms, word, used =>
    match m.bits with
    | none => sizeAux ms ((if used = 0 then word else word + 1) + 1) 0
    | some b =>
      if used + b ≤ 32 then sizeAux ms word (used + b) else sizeAux ms (word + 1) b

/-- Size of a record in 32-bit words. -/
def sizeWords {F : Type} (ms : List (Member F)) : Nat := sizeAux ms 0 0

/-- Slot of the member called `f`. -/
def slotOf {F : Type} [DecidableEq F] (e : Endian) (ms : List (Member F)) (f : F) :
    Option (Slot F) :=
  (layout e ms).find? (fun s => decide (s.name = f))

/-- Read the bits `lsb .. lsb + width - 1` of a word. -/
def extract (w lsb width : Nat) : Nat := w / 2 ^ lsb % 2 ^ width

/-- Bits a stored value contributes to its word: the value is cut to the field width and
moved to the field position. -/
def deposit (v lsb width : Nat) : Nat := v % 2 ^ width * 2 ^ lsb

/-- Read member `f` from the image of a record (its sequence of 32-bit words). -/
def decode {F : Type} [DecidableEq F] (e : Endian) (ms : List (Member F))
    (words : List Nat) (f : F) : Option Nat :=
  (slotOf e ms f).map (fun s => extract (words.getD s.word 0) s.lsb s.width)

/-- Word number `i` of the image: the contributions of all members living in unit `i`. -/
def encodeWord {F : Type} (vals : F → Nat) (slots : List (Slot F)) (i : Nat) : Nat :=
  ((slots.filter (fun s => decide (s.word = i))).map
    (fun s => deposit (vals s.name) s.lsb s.width)).sum

/-- Image of a record holding the member values `vals`. -/
def encode {F : Type} (e : Endian) (ms : List (Member F)) (vals : F → Nat) : List Nat :=
  (List.range (sizeWords ms)).map (encodeWord vals (layout e ms))

/-- Every member value fits the declared width of its member. -/
def InRange {F : Type} (ms : List (Member F)) (vals : F → Nat) : Prop :=
  ∀ m ∈ ms, vals m.name < 2 ^ m.width

/-! ## GLOBAL_CONFIG -/

/-- Member names of GLOBAL_CONFIG. -/
inductive GlobalField where
  | uMaxCoreChan
  | uWatchdogTimerMode
  | cpu_usage_low_watermark
  | cpu_usage_high_watermark
  | uPreserve_SSRC
  | reserved
  | port_start
  | num_ports
  | uInActiveTimeOut
  | uIdleTimeOut
  | uNtpTsMsw
  | uNtpTsLsw
  | uMaxSessionsPerThread
  | uMaxGroupsPerThread
  | uThreadEnergySaverInactivityTime
  | uThreadEnergySaverSleepTime
  | uThreadEnergySaverWaitForAppQueuesEmptyTime
  | uThreadPreemptionElapsedTimeAlarm
  | uReserved1
  | uReserved2
  | uReserved3
  | uReserved4
  | uReserved5
  | uReserved6
  | uReserved7
  | uReserved8
  | uReserved9
  deriving DecidableEq, Repr

/-- Build configuration: which of the header's conditional blocks are compiled in. -/
structure Build where
  USE_ATCA_GLOBALCONFIG_MODS : Bool
  hostClass : Bool
  deriving DecidableEq, Repr

/-- Host-class build (`_X86` or `_ARM` defined, no ATCA additions). -/
def hostBuild : Build := ⟨false, true⟩

/-- Members of GLOBAL_CONFIG in declaration order. -/
def GLOBAL_CONFIG (e : Endian) (b : Build) : List (Member GlobalField) :=
  (match e with
    | Endian.big => [⟨.uWatchdogTimerMode, some 16⟩, ⟨.uMaxCoreChan, some 16⟩]
    | Endian.little => [⟨.uMaxCoreChan, some 16⟩, ⟨.uWatchdogTimerMode, some 16⟩]) ++
  [⟨.cpu_usage_low_watermark, none⟩, ⟨.cpu_usage_high_watermark, none⟩] ++
  (match e with
    | Endian.big => [⟨.reserved, some 24⟩, ⟨.uPreserve_SSRC, some 8⟩]
    | Endian.little => [⟨.uPreserve_SSRC, some 8⟩, ⟨.reserved, some 24⟩]) ++
  (match e with
    | Endian.big => [⟨.num_ports, some 16⟩, ⟨.port_start, some 16⟩]
    | Endian.little => [⟨.port_start, some 16⟩, ⟨.num_ports, some 16⟩]) ++
  (if b.USE_ATCA_GLOBALCONFIG_MODS then
    [⟨.uInActiveTimeOut, none⟩, ⟨.uIdleTimeOut, none⟩, ⟨.uNtpTsMsw, none⟩, ⟨.uNtpTsLsw, none⟩]
   else []) ++
  (if b.hostClass then
    [⟨.uMaxSessionsPerThread, none⟩, ⟨.uMaxGroupsPerThread, none⟩,
     ⟨.uThreadEnergySaverInactivityTime, none⟩, ⟨.uThreadEnergySaverSleepTime, none⟩,
     ⟨.uThreadEnergySaverWaitForAppQueuesEmptyTime, none⟩,
     ⟨.uThreadPreemptionElapsedTimeAlarm, none⟩,
     ⟨.uReserved1, none⟩, ⟨.uReserved2, none⟩, ⟨.uReserved3, none⟩, ⟨.uReserved4, none⟩,
     ⟨.uReserved5, none⟩, ⟨.uReserved6, none⟩, ⟨.uReserved7, none⟩, ⟨.uReserved8, none⟩,
     ⟨.uReserved9, none⟩]
   else [])

/-! ## DEBUG_CONFIG -/

/-- Member names of the base part of DEBUG_CONFIG (the part outside `#ifdef _SIGRT`). -/
inductive DebugField where
  | uLogLevel
  | uLoopbackLevel
  | reserved1
  | uDebugMode
  | uAMRPackingFormat
  | uLowLevelMemTest
  | reserved2
  | reserved3
  deriving DecidableEq, Repr

/-- Members of the base DEBUG_CONFIG in declaration order. -/
def DEBUG_CONFIG : Endian → List (Member DebugField)
  | Endian.big =>
    [⟨.uLogLevel, none⟩,
     ⟨.uLoopbackLevel, some 16⟩, ⟨.reserved1, some 16⟩,
     ⟨.uDebugMode, none⟩,
     ⟨.reserved2, some 8⟩, ⟨.uLowLevelMemTest, some 8⟩, ⟨.uAMRPackingFormat, some 16⟩,
     ⟨.reserved3, none⟩]
  | Endian.little =>
    [⟨.uLogLevel, none⟩,
     ⟨.reserved1, some 16⟩, ⟨.uLoopbackLevel, some 16⟩,
     ⟨.uDebugMode, none⟩,
     ⟨.uAMRPackingFormat, some 16⟩, ⟨.uLowLevelMemTest, some 8⟩, ⟨.reserved2, some 8⟩,
     ⟨.reserved3, none⟩]

/-- Read a member of GLOBAL_CONFIG from the record image. -/
def GLOBAL_CONFIG_decode (e : Endian) (b : Build) (words : List Nat) (f : GlobalField) :
    Option Nat :=
  decode e (GLOBAL_CONFIG e b) words f

/-- Image of a GLOBAL_CONFIG holding the member values `vals`. -/
def GLOBAL_CONFIG_encode (e : Endian) (b : Build) (vals : GlobalField → Nat) : List Nat :=
  encode e (GLOBAL_CONFIG e b) vals

/-- Read a member of the base DEBUG_CONFIG from the record image. -/
def DEBUG_CONFIG_decode (e : Endian) (words : List Nat) (f : DebugField) : Option Nat :=
  decode e (DEBUG_CONFIG e) words f

/-- Image of a base DEBUG_CONFIG holding the member values `vals`. -/
def DEBUG_CONFIG_encode (e : Endian) (vals : DebugField → Nat) : List Nat :=
  encode e (DEBUG_CONFIG e) vals

/-- The members of GLOBAL_CONFIG that carry no meaning: `reserved` and `uReserved1..9`. -/
def GlobalField.isReserved : GlobalField → Bool
  | GlobalField.reserved => true
  | GlobalField.uReserved1 => true
  | GlobalField.uReserved2 => true
  | GlobalField.uReserved3 => true
  | GlobalField.uReserved4 => true
  | GlobalField.uReserved5 => true
  | GlobalField.uReserved6 => true
  | GlobalField.uReserved7 => true
  | GlobalField.uReserved8 => true
  | GlobalField.uReserved9 => true
  | _ => false

/-- The members of DEBUG_CONFIG that carry no meaning: `reserved1`, `reserved2`, `reserved3`. -/
def DebugField.isReserved : DebugField → Bool
  | DebugField.reserved1 => true
  | DebugField.reserved2 => true
  | DebugField.reserved3 => true
  | _ => false

/-- Bit `i` of word `k` belongs to slot `s`. -/
def Slot.covers {F : Type} (s : Slot F) (k i : Nat) : Bool :=
  decide (s.word = k) && decide (s.lsb ≤ i) && decide (i < s.lsb + s.width)

/-- Bit `i` of word `k` of the image belongs to a reserved member. -/
def reservedBit {F : Type} (e : Endian) (ms : List (Member F)) (isReserved : F → Bool)
    (k i : Nat) : Bool :=
  (layout e ms).any (fun s => isReserved s.name && s.covers k i)

/-- Two record images agree on every bit of every 32-bit word that is not reserved. -/
def DifferOnlyInReserved {F : Type} (e : Endian) (ms : List (Member F))
    (isReserved : F → Bool) (ws1 ws2 : List Nat) : Prop :=
  ∀ k i, i < 32 → reservedBit e ms isReserved k i = false →
    (ws1.getD k 0).testBit i = (ws2.getD k 0).testBit i

/-- No two slots of a layout share a bit. -/
def NoOverlap {F : Type} (slots : List (Slot F)) : Prop :=
  slots.Pairwise (fun a b => a.word ≠ b.word ∨ a.lsb + a.width ≤ b.lsb ∨ b.lsb + b.width ≤ a.lsb)

/-- Every slot of a layout lies inside its 32-bit word. -/
def WithinWord {F : Type} (slots : List (Slot F)) : Prop :=
  ∀ s ∈ slots, s.lsb + s.width ≤ 32

/-! ## Scalar members of the `_SIGRT` extension of DEBUG_CONFIG -/

/-- Integer types of the scalar members. -/
inductive CType where
  | uint8_t
  | uint32_t
  | uint64_t
  deriving DecidableEq, Repr

/-- Width of an integer type. -/
def CType.bits : CType → Nat
  | CType.uint8_t => 8
  | CType.uint32_t => 32
  | CType.uint64_t => 64

/-- Value held by an object of type `t` after the assignment of `v` (conversion to an
unsigned type reduces modulo `2 ^ bits`). -/
def CType.store (t : CType) (v : Nat) : Nat := v % 2 ^ t.bits

/-- Integer members of the `#ifdef _SIGRT` part of DEBUG_CONFIG (the file handle
`uEventLogFile` and the path buffer `szEventLogFilePath` are not integers and are left out). -/
inductive DebugExtField where
  | uDisableMismatchLog
  | uDisableConvertFsLog
  | uEventLogMode
  | uEventLog_fflush_size
  | uEventLog_max_size
  | uPrintfControl
  | uPrintfLevel
  | uPktStatsLogging
  | uEnablePktTracing
  | uEnableDataObjectStats
  | uPushPacketsElapsedTimeAlarm
  | uStreamGroupOutputWavFileSeekTimeAlarmThreshold
  | uReserved2
  | uReserved3
  | uReserved4
  | uReserved5
  | uReserved6
  | uReserved7
  | uReserved8
  | uReserved9
  deriving DecidableEq, Repr

/-- Declared type of each integer member of the extension. -/
def DEBUG_CONFIG_ext : DebugExtField → CType
  | DebugExtField.uDisableMismatchLog => CType.uint8_t
  | DebugExtField.uDisableConvertFsLog => CType.uint8_t
  | DebugExtField.uEventLogMode => CType.uint32_t
  | DebugExtField.uEventLog_fflush_size => CType.uint32_t
  | DebugExtField.uEventLog_max_size => CType.uint64_t
  | DebugExtField.uPrintfControl => CType.uint8_t
  | DebugExtField.uPrintfLevel => CType.uint8_t
  | DebugExtField.uPktStatsLogging => CType.uint8_t
  | DebugExtField.uEnablePktTracing => CType.uint8_t
  | DebugExtField.uEnableDataObjectStats => CType.uint8_t
  | DebugExtField.uPushPacketsElapsedTimeAlarm => CType.uint32_t
  | DebugExtField.uStreamGroupOutputWavFileSeekTimeAlarmThreshold => CType.uint32_t
  | DebugExtField.uReserved2 => CType.uint32_t
  | DebugExtField.uReserved3 => CType.uint32_t
  | DebugExtField.uReserved4 => CType.uint32_t
  | DebugExtField.uReserved5 => CType.uint32_t
  | DebugExtField.uReserved6 => CType.uint32_t
  | DebugExtField.uReserved7 => CType.uint32_t
  | DebugExtField.uReserved8 => CType.uint32_t
  | DebugExtField.uReserved9 => CType.uint32_t

/-- Value read back from member `f` after `f = v;`. -/
def DEBUG_CONFIG_ext_assign (f : DebugExtField) (v : Nat) : Nat :=
  (DEBUG_CONFIG_ext f).store v

/-! ## Flag vocabularies -/

/-- Bitwise OR of the flags picked by the selector `sel` (flag number `i` is picked when
entry `i` of `sel` is `true`). -/
def combine : List Nat → List Bool → Nat
  | x :: xs, b :: bs => (if b then x else 0) ||| combine xs bs
  | _, _ => 0

/-- Bitwise complement of a 32-bit value, `~x` seen as `uint32_t`. -/
def not32 (x : Nat) : Nat := 2 ^ 32 - 1 - x % 2 ^ 32

/-- A value with exactly one bit set, below bit 32. -/
def IsSingleBit (x : Nat) : Prop := ∃ k, k < 32 ∧ x = 2 ^ k

instance : DecidablePred IsSingleBit := fun x => by
  unfold IsSingleBit
  infer_instance

/-! ### enum DEBUG_MODE -/

def DS_JB_DISABLE : Nat := 0x1
def DS_VAU_DISABLE : Nat := 0x2
def DS_ECU_DISABLE : Nat := 0x4
def DS_TDU_DISABLE : Nat := 0x8
def DS_TGE_DISABLE : Nat := 0x10
def DS_DP_DSP_XFER_MEMCPY : Nat := 0x20
def DS_DSP_DP_XFER_MEMCPY : Nat := 0x40
def DS_LOG_HOST_MEM_XFER_TIMES : Nat := 0x80
def DS_DISABLE_CACHE : Nat := 0x100
def DS_LOG_JITTER_BUFFER : Nat := 0x200
def DS_JITTER_BUFFER_RTPGEN_COMPENSATE : Nat := 0x400

def DS_INJECT_XCODER_OUTPUT_SINEWAV : Nat := 0x1
def DS_INJECT_FLC_OUTPUT_LEVEL : Nat := 0x2
def DS_INJECT_GROUP_OUTPUT_MARKERS : Nat := 0x4
def DS_INJECT_GROUP_TIMING_MARKERS : Nat := 0x8
def DS_INJECT_GROUP_ALIGNMENT_MARKERS : Nat := 0x10

def DS_SHOW_MALLOC_STATS : Nat := 0x1000
def DS_ENABLE_GROUP_MODE_STATS : Nat := 0x2000
def DS_ENABLE_PUSHPACKETS_ELAPSED_TIME_ALARM : Nat := 0x4000
def DS_ENABLE_MANAGE_SESSION_STATS : Nat := 0x8000
def DS_ENABLE_EXTRA_PACKET_STATS : Nat := 0x10000

/-- The `pktlib debug options` of enum DEBUG_MODE. -/
def pktlibFlags : List Nat :=
  [DS_JB_DISABLE, DS_VAU_DISABLE, DS_ECU_DISABLE, DS_TDU_DISABLE, DS_TGE_DISABLE,
   DS_DP_DSP_XFER_MEMCPY, DS_DSP_DP_XFER_MEMCPY, DS_LOG_HOST_MEM_XFER_TIMES,
   DS_DISABLE_CACHE, DS_LOG_JITTER_BUFFER, DS_JITTER_BUFFER_RTPGEN_COMPENSATE]

/-- The `streamlib debug options` of enum DEBUG_MODE. -/
def streamlibFlags : List Nat :=
  [DS_INJECT_XCODER_OUTPUT_SINEWAV, DS_INJECT_FLC_OUTPUT_LEVEL,
   DS_INJECT_GROUP_OUTPUT_MARKERS, DS_INJECT_GROUP_TIMING_MARKERS,
   DS_INJECT_GROUP_ALIGNMENT_MARKERS]

/-- The `general debug options` of enum DEBUG_MODE. -/
def generalFlags : List Nat :=
  [DS_SHOW_MALLOC_STATS, DS_ENABLE_GROUP_MODE_STATS,
   DS_ENABLE_PUSHPACKETS_ELAPSED_TIME_ALARM, DS_ENABLE_MANAGE_SESSION_STATS,
   DS_ENABLE_EXTRA_PACKET_STATS]

/-- A flag tests as set in a value: `(m & flag) != 0`. -/
def flagSet (m flag : Nat) : Bool := m &&& flag != 0

/-! ### enum PACKET_STATS_LOGGING -/

def DS_ENABLE_PACKET_STATS_HISTORY_LOGGING : Nat := 1
def DS_LOG_BAD_PACKETS : Nat := 2
def DS_ENABLE_PACKET_TIME_STATS : Nat := 4
def DS_ENABLE_PACKET_LOSS_STATS : Nat := 8

/-! ### enum PACKING_FORMAT -/

def DS_IF1_NOCRC : Nat := 0
def DS_IF1_CRC : Nat := 1
def DS_IF2 : Nat := 2
def DS_MMS_IO : Nat := 3
def DS_NO_OVERRIDE : Nat := 4

/-! ### enum EVENT_LOG_MODE -/

def DS_EVENT_LOG_DISABLE : Nat := 4
def DS_EVENT_LOG_APPEND : Nat := 8
def DS_EVENT_LOG_UPTIME_TIMESTAMPS : Nat := 0
def DS_EVENT_LOG_WALLCLOCK_TIMESTAMPS : Nat := 0x40
def DS_EVENT_LOG_WARN_ERROR_ONLY : Nat := 0x80
def DS_EVENT_LOG_USER_TIMEVAL : Nat := 0x100
def DS_EVENT_LOG_TIMEVAL_PRECISION_USEC : Nat := 0x200
def DS_EVENT_LOG_TIMEVAL_PRECISION_MSEC : Nat := 0x400

/-! ### DS_LOG_LEVEL_xx -/

def DS_LOG_LEVEL_MASK : Nat := 0x1f
def DS_LOG_LEVEL_NO_API_CHECK : Nat := 0x1000
def DS_LOG_LEVEL_NO_TIMESTAMP : Nat := 0x2000
def DS_LOG_LEVEL_OUTPUT_FILE : Nat := 0x4000
def DS_LOG_LEVEL_APPEND_STRING : Nat := 0x8000
def DS_LOG_LEVEL_DONT_ADD_NEWLINE : Nat := 0x10000
def DS_LOG_LEVEL_IGNORE_LINE_CURSOR_POS : Nat := 0x20000
def DS_LOG_LEVEL_OUTPUT_CONSOLE : Nat := 0x40000
def DS_LOG_LEVEL_OUTPUT_FILE_CONSOLE : Nat :=
  DS_LOG_LEVEL_OUTPUT_FILE ||| DS_LOG_LEVEL_OUTPUT_CONSOLE
def DS_LOG_LEVEL_SUBSITUTE_WEC : Nat := 0x100000
def DS_LOG_LEVEL_USE_STDERR : Nat := 0x200000

/-- The nine override flags that may accompany a log level. -/
def logLevelOverrideFlags : List Nat :=
  [DS_LOG_LEVEL_NO_API_CHECK, DS_LOG_LEVEL_NO_TIMESTAMP, DS_LOG_LEVEL_OUTPUT_FILE,
   DS_LOG_LEVEL_APPEND_STRING, DS_LOG_LEVEL_DONT_ADD_NEWLINE,
   DS_LOG_LEVEL_IGNORE_LINE_CURSOR_POS, DS_LOG_LEVEL_OUTPUT_CONSOLE,
   DS_LOG_LEVEL_SUBSITUTE_WEC, DS_LOG_LEVEL_USE_STDERR]

/-- Level number carried by a log-level value. -/
def logLevelOf (v : Nat) : Nat := v &&& DS_LOG_LEVEL_MASK

/-! ### DS_PACKET_TRACE_xx -/

def DS_PACKET_TRACE_PUSH : Nat := 1
def DS_PACKET_TRACE_RECEIVE : Nat := 2
def DS_PACKET_TRACE_JITTER_BUFFER : Nat := 4
def DS_PACKET_TRACE_TRANSMIT : Nat := 8
def DS_PACKET_TRACE_PULL : Nat := 0x10
def DS_PACKET_TRACE_MASK : Nat := 0xff
def DS_PACKET_TRACE_LOG_SRC_IP_ADDR : Nat := 0x100
def DS_PACKET_TRACE_LOG_DST_IP_ADDR : Nat := 0x200
def DS_PACKET_TRACE_LOG_SRC_UDP_PORT : Nat := 0x400
def DS_PACKET_TRACE_LOG_DST_UDP_PORT : Nat := 0x800

/-- The five pipeline stages that can be traced. -/
def packetTraceStageFlags : List Nat :=
  [DS_PACKET_TRACE_PUSH, DS_PACKET_TRACE_RECEIVE, DS_PACKET_TRACE_JITTER_BUFFER,
   DS_PACKET_TRACE_TRANSMIT, DS_PACKET_TRACE_PULL]

/-- The four flags asking for additional info in a trace. -/
def packetTraceInfoFlags : List Nat :=
  [DS_PACKET_TRACE_LOG_SRC_IP_ADDR, DS_PACKET_TRACE_LOG_DST_IP_ADDR,
   DS_PACKET_TRACE_LOG_SRC_UDP_PORT, DS_PACKET_TRACE_LOG_DST_UDP_PORT]

/-- Stage bits of a tracing value. -/
def traceStages (v : Nat) : Nat := v &&& DS_PACKET_TRACE_MASK

/-! ## Further vocabulary and layout measures -/

/-- The non-zero flags of enum EVENT_LOG_MODE. -/
def eventLogModeFlags : List Nat :=
  [DS_EVENT_LOG_DISABLE, DS_EVENT_LOG_APPEND, DS_EVENT_LOG_WALLCLOCK_TIMESTAMPS,
   DS_EVENT_LOG_WARN_ERROR_ONLY, DS_EVENT_LOG_USER_TIMEVAL,
   DS_EVENT_LOG_TIMEVAL_PRECISION_USEC, DS_EVENT_LOG_TIMEVAL_PRECISION_MSEC]

/-- Mask of the values 0-3 that enum EVENT_LOG_MODE leaves to the LOG_xx definitions of
diaglib.h. -/
def LOG_xx_mask : Nat := 0x3

/-- The flags of enum PACKET_STATS_LOGGING. -/
def packetStatsLoggingFlags : List Nat :=
  [DS_ENABLE_PACKET_STATS_HISTORY_LOGGING, DS_LOG_BAD_PACKETS, DS_ENABLE_PACKET_TIME_STATS,
   DS_ENABLE_PACKET_LOSS_STATS]

/-- The four packing formats of enum PACKING_FORMAT (all enumerators but DS_NO_OVERRIDE). -/
def packingFormats : List Nat :=
  [DS_IF1_NOCRC, DS_IF1_CRC, DS_IF2, DS_MMS_IO]

/-- Result of testing each flag of a vocabulary in a value, in the order of the list. -/
def testFlags (flags : List Nat) (v : Nat) : List Bool := flags.map (flagSet v)

/-- Number of slots of a layout that contain bit `i` of word `k`. -/
def coverCount {F : Type} (slots : List (Slot F)) (k i : Nat) : Nat :=
  (slots.filter (fun s => s.covers k i)).length

/-- Sum of the widths of the members living in word `k`. -/
def widthSum {F : Type} (slots : List (Slot F)) (k : Nat) : Nat :=
  ((slots.filter (fun s => decide (s.word = k))).map (fun s => s.width)).sum

/-- Image of a zero-initialised record. -/
def zeroImage {F : Type} (ms : List (Member F)) : List Nat :=
  List.replicate (sizeWords ms) 0

/-- Timestamp formats a precision selector can ask for. -/
inductive TimevalPrecision where
  | usec
  | msec
  | unspecified
  deriving DecidableEq, Repr

/-- Modelled from the spec: the choice of timestamp precision made from uEventLogMode by
DSGetLogTimestamp() of diaglib (diaglib_util.cpp), which the header refers to and which is
not among the sources at hand. The spec: at most one precision selector is meaningful at
a time; if both are set, microsecond precision takes precedence. -/
def resolvePrecision (uEventLogMode : Nat) : TimevalPrecision :=
  if flagSet uEventLogMode DS_EVENT_LOG_TIMEVAL_PRECISION_USEC then TimevalPrecision.usec
  else if flagSet uEventLogMode DS_EVENT_LOG_TIMEVAL_PRECISION_MSEC then TimevalPrecision.msec
  else TimevalPrecision.unspecified

/-! ## Sample records -/

/-- Member values used to exercise the round trip: the documented defaults of
GLOBAL_CONFIG (2048 channels per core, watchdog mode 3) and zero elsewhere. -/
def defaultGlobal : GlobalField → Nat
  | GlobalField.uMaxCoreChan => 2048
  | GlobalField.uWatchdogTimerMode => 3
  | _ => 0

/-- Image of a base DEBUG_CONFIG with log level 8, loopback level 5, packing format
DS_NO_OVERRIDE (4) and memory test on, all reserved bits zero. -/
def debugImage : List Nat := [8, 0x00050000, 0, 0x00010004, 0]

/-- The same record with every reserved bit set. -/
def debugImageReservedSet : List Nat := [8, 0x0005ffff, 0, 0xff010004, 0xffffffff]

/-! ## Layout: helper lemmas -/

theorem DEBUG_CONFIG_roundtrip (e : Endian) (vals : DebugField → Nat)
    (h : InRange (DEBUG_CONFIG e) vals) :
    ∀ m ∈ DEBUG_CONFIG e,
      DEBUG_CONFIG_decode e (DEBUG_CONFIG_encode e vals) m.name = some (vals m.name) := by
  cases e <;>
  · simp only [InRange, DEBUG_CONFIG, List.forall_mem_cons, Member.width, Option.getD] at h
    simp [DEBUG_CONFIG_decode, DEBUG_CONFIG_encode, DEBUG_CONFIG, decode, slotOf, layout,
      layoutAux, encode, encodeWord, sizeWords, sizeAux, place, extract, deposit, List.range,
      List.range.loop]
    omega

set_option maxHeartbeats 4000000 in
theorem GLOBAL_CONFIG_roundtrip (e : Endian) (b : Build) (vals : GlobalField → Nat)
    (h : InRange (GLOBAL_CONFIG e b) vals) :
    ∀ m ∈ GLOBAL_CONFIG e b,
      GLOBAL_CONFIG_decode e b (GLOBAL_CONFIG_encode e b vals) m.name = some (vals m.name) := by
  rcases b with ⟨_ | _, _ | _⟩ <;> cases e <;>
  · simp only [InRange, GLOBAL_CONFIG, List.forall_mem_cons, Member.width, Option.getD,
      List.append_eq, List.cons_append, List.nil_append, if_true, if_false,
      Bool.false_eq_true, List.append_nil] at h
    simp [GLOBAL_CONFIG_decode, GLOBAL_CONFIG_encode, GLOBAL_CONFIG, decode, slotOf, layout,
      layoutAux, encode, encodeWord, sizeWords, sizeAux, place, extract, deposit, List.range,
      List.range.loop]
    omega

theorem extract_congr (w1 w2 lsb width : Nat)
    (h : ∀ i, lsb ≤ i → i < lsb + width → w1.testBit i = w2.testBit i) :
    extract w1 lsb width = extract w2 lsb width := by
  unfold extract
  apply Nat.eq_of_testBit_eq
  intro j
  rw [← Nat.shiftRight_eq_div_pow, ← Nat.shiftRight_eq_div_pow]
  simp only [Nat.testBit_mod_two_pow, Nat.testBit_shiftRight]
  by_cases hj : j < width
  · simp only [hj, decide_True, Bool.true_and]
    exact h (lsb + j) (by omega) (by omega)
  · simp [hj]

theorem slotOf_mem {F : Type} [DecidableEq F] {e : Endian} {ms : List (Member F)} {f : F}
    {s : Slot F} (hs : slotOf e ms f = some s) : s ∈ layout e ms ∧ s.name = f := by
  refine ⟨List.mem_of_find?_eq_some hs, ?_⟩
  have := List.find?_some hs
  simpa using this

theorem not_reservedBit_of_named {F : Type} (e : Endian) (ms : List (Member F))
    (R : F → Bool) (hno : NoOverlap (layout e ms)) (s : Slot F) (hmem : s ∈ layout e ms)
    (hR : R s.name = false) (i : Nat) (h1 : s.lsb ≤ i) (h2 : i < s.lsb + s.width) :
    reservedBit e ms R s.word i = false := by
  unfold reservedBit
  rw [List.any_eq_false]
  intro t ht hcov
  simp only [Slot.covers, Bool.and_eq_true, decide_eq_true_eq] at hcov
  obtain ⟨hRt, ⟨hw, hl⟩, hu⟩ := hcov
  have hne : t ≠ s := by
    intro heq
    rw [heq, hR] at hRt
    exact Bool.false_ne_true hRt
  have hsym : Symmetric (fun a b : Slot F =>
      a.word ≠ b.word ∨ a.lsb + a.width ≤ b.lsb ∨ b.lsb + b.width ≤ a.lsb) := by
    intro a b hab
    rcases hab with h | h | h
    · exact Or.inl (Ne.symm h)
    · exact Or.inr (Or.inr h)
    · exact Or.inr (Or.inl h)
  have := List.Pairwise.forall hsym hno ht hmem hne
  omega

theorem decode_frame {F : Type} [DecidableEq F] (e : Endian) (ms : List (Member F))
    (R : F → Bool) (ws1 ws2 : List Nat) (hno : NoOverlap (layout e ms))
    (hin : WithinWord (layout e ms)) (hd : DifferOnlyInReserved e ms R ws1 ws2) (f : F)
    (hf : R f = false) : decode e ms ws1 f = decode e ms ws2 f := by
  unfold decode
  cases hs : slotOf e ms f with
  | none => rfl
  | some s =>
    obtain ⟨hmem, hname⟩ := slotOf_mem hs
    simp only [Option.map_some']
    congr 1
    apply extract_congr
    intro i h1 h2
    have h32 : i < 32 := by
      have := hin s hmem
      omega
    exact hd s.word i h32
      (not_reservedBit_of_named e ms R hno s hmem (by rw [hname]; exact hf) i h1 h2)

theorem differOnly_set {F : Type} [DecidableEq F] (e : Endian) (ms : List (Member F))
    (R : F → Bool) (ws : List Nat) (hin : WithinWord (layout e ms)) (r : F) (s : Slot F)
    (hs : slotOf e ms r = some s) (hr : R r = true) (hw : s.width = 32) (v : Nat) :
    DifferOnlyInReserved e ms R ws (ws.set s.word v) := by
  obtain ⟨hmem, hname⟩ := slotOf_mem hs
  intro k i hi hres
  by_cases hk : s.word = k
  · exfalso
    have hcov : reservedBit e ms R k i = true := by
      unfold reservedBit
      rw [List.any_eq_true]
      refine ⟨s, hmem, ?_⟩
      have := hin s hmem
      simp only [Slot.covers, Bool.and_eq_true, decide_eq_true_eq]
      refine ⟨by rw [hname]; exact hr, ⟨hk, by omega⟩, by omega⟩
    rw [hcov] at hres
    exact Bool.noConfusion hres
  · simp [List.getD_eq_getElem?_getD, List.getElem?_set_ne hk]

theorem GLOBAL_CONFIG_layout_ok (e : Endian) (b : Build) :
    NoOverlap (layout e (GLOBAL_CONFIG e b)) ∧ WithinWord (layout e (GLOBAL_CONFIG e b)) := by
  rcases b with ⟨_ | _, _ | _⟩ <;> cases e <;> (unfold NoOverlap WithinWord; decide)

theorem DEBUG_CONFIG_layout_ok (e : Endian) :
    NoOverlap (layout e (DEBUG_CONFIG e)) ∧ WithinWord (layout e (DEBUG_CONFIG e)) := by
  cases e <;> (unfold NoOverlap WithinWord; decide)

/-! ## Flags: helper lemmas -/

theorem or_and_of_and_eq_zero (v e m : Nat) (h : e &&& m = 0) :
    (v ||| e) &&& m = v &&& m := by
  apply Nat.eq_of_testBit_eq
  intro i
  have hi := congrArg (fun x => Nat.testBit x i) h
  simp only [Nat.testBit_and, Nat.zero_testBit] at hi
  simp only [Nat.testBit_and, Nat.testBit_or]
  cases hv : v.testBit i <;> cases he : e.testBit i <;> cases hm : m.testBit i <;> simp_all

theorem combine_and_eq_zero (m : Nat) :
    ∀ (flags : List Nat) (sel : List Bool), (∀ x ∈ flags, x &&& m = 0) →
      combine flags sel &&& m = 0
  | [], _, _ => by simp [combine]
  | _ :: _, [], _ => by simp [combine]
  | x :: xs, b :: bs, h => by
    have hx : x &&& m = 0 := h x (List.mem_cons_self _ _)
    have ih := combine_and_eq_zero m xs bs (fun y hy => h y (List.mem_cons_of_mem _ hy))
    have h0 : (if b then x else 0) &&& m = 0 := by cases b <;> simp [hx]
    rw [combine, Nat.and_comm, Nat.and_or_distrib_left, Nat.and_comm m, Nat.and_comm m, h0, ih]
    rfl

theorem combine_lt (n : Nat) :
    ∀ (flags : List Nat) (sel : List Bool), (∀ x ∈ flags, x < 2 ^ n) →
      combine flags sel < 2 ^ n
  | [], _, _ => by simp [combine]
  | _ :: _, [], _ => by simp [combine]
  | x :: xs, b :: bs, h => by
    have hx : x < 2 ^ n := h x (List.mem_cons_self _ _)
    have ih := combine_lt n xs bs (fun y hy => h y (List.mem_cons_of_mem _ hy))
    have h0 : (if b then x else 0) < 2 ^ n := by
      cases b
      · exact Nat.pos_pow_of_pos n (by decide)
      · simpa using hx
    rw [combine]
    exact Nat.or_lt_two_pow h0 ih

theorem and_not32_and (m g p : Nat) (hp : p < 2 ^ 32) (h : g &&& p = 0) :
    (m &&& not32 g) &&& p = m &&& p := by
  apply Nat.eq_of_testBit_eq
  intro i
  have hi := congrArg (fun x => Nat.testBit x i) h
  simp only [Nat.testBit_and, Nat.zero_testBit] at hi
  have hg : (not32 g).testBit i = (decide (i < 32) && !(g % 2 ^ 32).testBit i) := by
    have hlt : g % 2 ^ 32 < 2 ^ 32 := Nat.mod_lt _ (by decide)
    have := Nat.testBit_two_pow_sub_succ hlt i
    rw [← this, not32]
    congr 1
    omega
  have hpi : p.testBit i = true → i < 32 := by
    intro hb
    by_contra hge
    have : p < 2 ^ i := Nat.lt_of_lt_of_le hp (Nat.pow_le_pow_right (by decide) (by omega))
    rw [Nat.testBit_lt_two_pow this] at hb
    exact Bool.false_ne_true hb
  simp only [Nat.testBit_and, hg, Nat.testBit_mod_two_pow]
  cases hpb : p.testBit i
  · simp
  · have h32 : i < 32 := hpi hpb
    rw [hpb] at hi
    simp at hi
    simp [h32, hi]

theorem and_two_pow_cases (v k : Nat) : v &&& 2 ^ k = 0 ∨ v &&& 2 ^ k = 2 ^ k := by
  cases h : v.testBit k
  · left
    apply Nat.eq_of_testBit_eq
    intro i
    simp only [Nat.testBit_and, Nat.testBit_two_pow, Nat.zero_testBit]
    by_cases hki : k = i
    · subst hki; simp [h]
    · simp [hki]
  · right
    apply Nat.eq_of_testBit_eq
    intro i
    simp only [Nat.testBit_and, Nat.testBit_two_pow]
    by_cases hki : k = i
    · subst hki; simp [h]
    · simp [hki]

theorem combine_and_combine_eq_zero (as bs : List Nat) (s t : List Bool)
    (h : ∀ x ∈ as, ∀ y ∈ bs, x &&& y = 0) : combine as s &&& combine bs t = 0 := by
  apply combine_and_eq_zero
  intro x hx
  rw [Nat.and_comm]
  apply combine_and_eq_zero
  intro y hy
  rw [Nat.and_comm]
  exact h x hx y hy

theorem general_disjoint_lib :
    ∀ g ∈ generalFlags, ∀ p ∈ pktlibFlags ++ streamlibFlags, g &&& p = 0 := by
  decide

/-! ## Flags: recovering a combination -/

theorem testBit_not32 (g i : Nat) :
    (not32 g).testBit i = (decide (i < 32) && !(g % 2 ^ 32).testBit i) := by
  have hlt : g % 2 ^ 32 < 2 ^ 32 := Nat.mod_lt _ (by decide)
  rw [← Nat.testBit_two_pow_sub_succ hlt i, not32]
  congr 1
  omega

theorem and_not32_self (m g : Nat) : (m &&& not32 g) &&& g % 2 ^ 32 = 0 := by
  apply Nat.eq_of_testBit_eq
  intro i
  simp only [Nat.testBit_and, testBit_not32, Nat.zero_testBit]
  cases (g % 2 ^ 32).testBit i <;> simp

theorem flagSet_or_of_disjoint (l c f : Nat) (h : l &&& f = 0) :
    flagSet (l ||| c) f = flagSet c f := by
  unfold flagSet
  rw [Nat.or_comm, or_and_of_and_eq_zero c l f h]

theorem and_eq_zero_of_lt_mask (l f n : Nat) (hl : l < 2 ^ n) (hf : f &&& (2 ^ n - 1) = 0) :
    l &&& f = 0 := by
  rw [← Nat.and_pow_two_sub_one_of_lt_two_pow hl, Nat.and_assoc, Nat.and_comm (2 ^ n - 1) f,
    hf]
  exact Nat.and_zero l

theorem testFlags_combine :
    ∀ (flags : List Nat) (sel : List Bool), flags.Pairwise (fun a b => a &&& b = 0) →
      (∀ x ∈ flags, x ≠ 0) → sel.length = flags.length →
      testFlags flags (combine flags sel) = sel
  | [], [], _, _, _ => rfl
  | [], _ :: _, _, _, h => by simp at h
  | _ :: _, [], _, _, h => by simp at h
  | x :: xs, b :: bs, hp, hz, hl => by
    rw [List.pairwise_cons] at hp
    have ih := testFlags_combine xs bs hp.2 (fun y hy => hz y (List.mem_cons_of_mem _ hy))
      (by simpa using hl)
    have hx : x ≠ 0 := hz x (List.mem_cons_self _ _)
    have hc : combine xs bs &&& x = 0 :=
      combine_and_eq_zero x xs bs (fun y hy => by rw [Nat.and_comm]; exact hp.1 y hy)
    have hhead : flagSet (combine (x :: xs) (b :: bs)) x = b := by
      unfold flagSet
      rw [combine, or_and_of_and_eq_zero _ _ _ hc]
      cases b
      · simp
      · simpa using hx
    have htail : testFlags xs (combine (x :: xs) (b :: bs)) = testFlags xs (combine xs bs) := by
      unfold testFlags
      apply List.map_congr_left
      intro y hy
      rw [combine]
      apply flagSet_or_of_disjoint
      cases b
      · exact Nat.zero_and y
      · exact hp.1 y hy
    show flagSet (combine (x :: xs) (b :: bs)) x :: testFlags xs (combine (x :: xs) (b :: bs))
      = b :: bs
    rw [hhead, htail, ih]

theorem testFlags_or_of_disjoint (flags : List Nat) (l c : Nat)
    (h : ∀ f ∈ flags, l &&& f = 0) : testFlags flags (l ||| c) = testFlags flags c := by
  unfold testFlags
  apply List.map_congr_left
  intro f hf
  exact flagSet_or_of_disjoint l c f (h f hf)

/-! ## Claims -/

/-- C1: in both field orders every member of GLOBAL_CONFIG and of DEBUG_CONFIG decodes to
the same value from the same record image, and each named bit-field is read from the same
bit range of its word whatever the field order: uMaxCoreChan bits 0-15 and
uWatchdogTimerMode bits 16-31 of word 0, uPreserve_SSRC bits 0-7 of word 3, port_start
bits 0-15 and num_ports bits 16-31 of word 4 of GLOBAL_CONFIG; uLoopbackLevel bits 16-31 of
word 1, uAMRPackingFormat bits 0-15 and uLowLevelMemTest bits 16-23 of word 3 of
DEBUG_CONFIG. -/
theorem packed_fields_same_bits_in_both_field_orders :
    (∀ (b : Build) (words : List Nat) (f : GlobalField),
      GLOBAL_CONFIG_decode Endian.big b words f
        = GLOBAL_CONFIG_decode Endian.little b words f) ∧
    (∀ (words : List Nat) (f : DebugField),
      DEBUG_CONFIG_decode Endian.big words f = DEBUG_CONFIG_decode Endian.little words f) ∧
    (∀ (e : Endian) (b : Build) (words : List Nat),
      GLOBAL_CONFIG_decode e b words GlobalField.uMaxCoreChan
        = some (words.getD 0 0 / 2 ^ 0 % 2 ^ 16) ∧
      GLOBAL_CONFIG_decode e b words GlobalField.uWatchdogTimerMode
        = some (words.getD 0 0 / 2 ^ 16 % 2 ^ 16) ∧
      GLOBAL_CONFIG_decode e b words GlobalField.uPreserve_SSRC
        = some (words.getD 3 0 / 2 ^ 0 % 2 ^ 8) ∧
      GLOBAL_CONFIG_decode e b words GlobalField.port_start
        = some (words.getD 4 0 / 2 ^ 0 % 2 ^ 16) ∧
      GLOBAL_CONFIG_decode e b words GlobalField.num_ports
        = some (words.getD 4 0 / 2 ^ 16 % 2 ^ 16)) ∧
    (∀ (e : Endian) (words : List Nat),
      DEBUG_CONFIG_decode e words DebugField.uLoopbackLevel
        = some (words.getD 1 0 / 2 ^ 16 % 2 ^ 16) ∧
      DEBUG_CONFIG_decode e words DebugField.uAMRPackingFormat
        = some (words.getD 3 0 / 2 ^ 0 % 2 ^ 16) ∧
      DEBUG_CONFIG_decode e words DebugField.uLowLevelMemTest
        = some (words.getD 3 0 / 2 ^ 16 % 2 ^ 8)) := by
  refine ⟨?_, ?_, ?_, ?_⟩
  · intro b words f
    rcases b with ⟨_ | _, _ | _⟩ <;> cases f <;> rfl
  · intro words f
    cases f <;> rfl
  · intro e b words
    rcases b with ⟨_ | _, _ | _⟩ <;> cases e <;> exact ⟨rfl, rfl, rfl, rfl, rfl⟩
  · intro e words
    cases e <;> exact ⟨rfl, rfl, rfl⟩

/-- C2: round trip. Whenever every member value fits the declared width of its member,
encoding a GLOBAL_CONFIG (in any build) or a base DEBUG_CONFIG into its sequence of 32-bit
words and decoding that sequence gives back the value of every member, under the
big-endian and under the little-endian field order. -/
theorem encode_decode_roundtrip :
    (∀ (e : Endian) (b : Build) (vals : GlobalField → Nat),
      InRange (GLOBAL_CONFIG e b) vals →
      ∀ m ∈ GLOBAL_CONFIG e b,
        GLOBAL_CONFIG_decode e b (GLOBAL_CONFIG_encode e b vals) m.name
          = some (vals m.name)) ∧
    (∀ (e : Endian) (vals : DebugField → Nat),
      InRange (DEBUG_CONFIG e) vals →
      ∀ m ∈ DEBUG_CONFIG e,
        DEBUG_CONFIG_decode e (DEBUG_CONFIG_encode e vals) m.name = some (vals m.name)) :=
  ⟨GLOBAL_CONFIG_roundtrip, DEBUG_CONFIG_roundtrip⟩

/-- Witness for C2: the default GLOBAL_CONFIG of a host build, big-endian field order;
uMaxCoreChan is read back as 2048. -/
theorem encode_decode_roundtrip_witness :
    InRange (GLOBAL_CONFIG Endian.big hostBuild) defaultGlobal ∧
    (⟨GlobalField.uMaxCoreChan, some 16⟩ : Member GlobalField)
      ∈ GLOBAL_CONFIG Endian.big hostBuild ∧
    GLOBAL_CONFIG_decode Endian.big hostBuild
        (GLOBAL_CONFIG_encode Endian.big hostBuild defaultGlobal) GlobalField.uMaxCoreChan
      = some 2048 :=
  have hr : InRange (GLOBAL_CONFIG Endian.big hostBuild) defaultGlobal := by
    intro m hm
    simp [GLOBAL_CONFIG, hostBuild] at hm
    rcases hm with h | h | h | h | h | h | h | h | h | h | h | h | h | h | h | h | h | h | h
      | h | h | h | h <;> subst h <;> decide
  have hm : (⟨GlobalField.uMaxCoreChan, some 16⟩ : Member GlobalField)
      ∈ GLOBAL_CONFIG Endian.big hostBuild := by
    simp [GLOBAL_CONFIG, hostBuild]
  ⟨hr, hm, encode_decode_roundtrip.1 Endian.big hostBuild defaultGlobal hr _ hm⟩

/-- C3: the member uEnablePktTracing is a uint8_t, so it does not hold the whole
packet-tracing bitmask: storing DS_PACKET_TRACE_JITTER_BUFFER together with
DS_PACKET_TRACE_LOG_SRC_IP_ADDR (0x104) reads back as DS_PACKET_TRACE_JITTER_BUFFER alone
(0x04), and more generally every combination of extra-info flags is lost by the store. -/
theorem uEnablePktTracing_loses_info_flags :
    DEBUG_CONFIG_ext DebugExtField.uEnablePktTracing = CType.uint8_t ∧
    DEBUG_CONFIG_ext_assign DebugExtField.uEnablePktTracing
        (DS_PACKET_TRACE_JITTER_BUFFER ||| DS_PACKET_TRACE_LOG_SRC_IP_ADDR)
      = DS_PACKET_TRACE_JITTER_BUFFER ∧
    DEBUG_CONFIG_ext_assign DebugExtField.uEnablePktTracing
        (DS_PACKET_TRACE_JITTER_BUFFER ||| DS_PACKET_TRACE_LOG_SRC_IP_ADDR)
      ≠ DS_PACKET_TRACE_JITTER_BUFFER ||| DS_PACKET_TRACE_LOG_SRC_IP_ADDR ∧
    (∀ (v : Nat) (sel : List Bool),
      DEBUG_CONFIG_ext_assign DebugExtField.uEnablePktTracing
          (v ||| combine packetTraceInfoFlags sel)
        = DEBUG_CONFIG_ext_assign DebugExtField.uEnablePktTracing v) := by
  refine ⟨rfl, by decide, by decide, ?_⟩
  intro v sel
  have h0 : combine packetTraceInfoFlags sel &&& (2 ^ 8 - 1) = 0 :=
    combine_and_eq_zero _ _ _ (by decide)
  show (v ||| combine packetTraceInfoFlags sel) % 2 ^ 8 = v % 2 ^ 8
  rw [← Nat.and_pow_two_sub_one_eq_mod, ← Nat.and_pow_two_sub_one_eq_mod]
  exact or_and_of_and_eq_zero _ _ _ h0

/-- C4: the five stage flags are pairwise distinct single bits inside
DS_PACKET_TRACE_MASK, the four extra-info flags share no bit with the mask, so adding any
combination of extra-info flags to a tracing value leaves its stage bits unchanged;
DS_PACKET_TRACE_JITTER_BUFFER alone sets no other stage, and 0 sets no stage. -/
theorem packet_trace_stage_selection :
    packetTraceStageFlags.Nodup ∧
    (∀ x ∈ packetTraceStageFlags, IsSingleBit x ∧ x &&& DS_PACKET_TRACE_MASK = x) ∧
    (∀ x ∈ packetTraceInfoFlags, x &&& DS_PACKET_TRACE_MASK = 0) ∧
    (∀ (v : Nat) (sel : List Bool),
      traceStages (v ||| combine packetTraceInfoFlags sel) = traceStages v) ∧
    (∀ x ∈ packetTraceStageFlags,
      flagSet DS_PACKET_TRACE_JITTER_BUFFER x = decide (x = DS_PACKET_TRACE_JITTER_BUFFER)) ∧
    traceStages DS_PACKET_TRACE_JITTER_BUFFER = DS_PACKET_TRACE_JITTER_BUFFER ∧
    (∀ x ∈ packetTraceStageFlags, flagSet 0 x = false) ∧
    traceStages 0 = 0 := by
  refine ⟨by decide, by decide, by decide, ?_, by decide, by decide, by decide, by decide⟩
  intro v sel
  exact or_and_of_and_eq_zero _ _ _ (combine_and_eq_zero _ _ _ (by decide))

/-- Witness for C4: at the stage flag DS_PACKET_TRACE_PULL, and at the value
DS_PACKET_TRACE_RECEIVE with two extra-info flags added. -/
theorem packet_trace_stage_selection_witness :
    DS_PACKET_TRACE_PULL ∈ packetTraceStageFlags ∧
    (IsSingleBit DS_PACKET_TRACE_PULL ∧
      DS_PACKET_TRACE_PULL &&& DS_PACKET_TRACE_MASK = DS_PACKET_TRACE_PULL) ∧
    traceStages (DS_PACKET_TRACE_RECEIVE ||| combine packetTraceInfoFlags [true, false, true])
      = traceStages DS_PACKET_TRACE_RECEIVE :=
  ⟨by decide,
   packet_trace_stage_selection.2.1 DS_PACKET_TRACE_PULL (by decide),
   packet_trace_stage_selection.2.2.2.1 DS_PACKET_TRACE_RECEIVE [true, false, true]⟩

/-- C5: none of the nine override flags shares a bit with DS_LOG_LEVEL_MASK, so a level
between 0 and 8 combined with any set of override flags is read back unchanged through
the mask; a level of 0 stays 0. -/
theorem log_level_independent_of_overrides :
    (∀ x ∈ logLevelOverrideFlags, x &&& DS_LOG_LEVEL_MASK = 0) ∧
    (∀ (l : Nat) (sel : List Bool), l ≤ 8 →
      logLevelOf (l ||| combine logLevelOverrideFlags sel) = l) ∧
    (∀ sel : List Bool, logLevelOf (0 ||| combine logLevelOverrideFlags sel) = 0) := by
  have key : ∀ (l : Nat) (sel : List Bool), l ≤ 8 →
      logLevelOf (l ||| combine logLevelOverrideFlags sel) = l := by
    intro l sel hl
    have h1 : logLevelOf (l ||| combine logLevelOverrideFlags sel) = l &&& DS_LOG_LEVEL_MASK :=
      or_and_of_and_eq_zero _ _ _ (combine_and_eq_zero _ _ _ (by decide))
    rw [h1]
    interval_cases l <;> rfl
  exact ⟨by decide, key, fun sel => key 0 sel (by decide)⟩

/-- Witness for C5: level 8 with the flags DS_LOG_LEVEL_NO_API_CHECK and
DS_LOG_LEVEL_OUTPUT_FILE. -/
theorem log_level_independent_of_overrides_witness :
    (8 : Nat) ≤ 8 ∧
    logLevelOf (8 ||| combine logLevelOverrideFlags [true, false, true]) = 8 :=
  ⟨by decide, log_level_independent_of_overrides.2.1 8 [true, false, true] (by decide)⟩

/-- Counterexample for C6: DS_LOG_LEVEL_MASK is 0x1f, so the level number read through
it is not bounded by 15: the value 0x1f is read as level 31 and the value 16 as level
16. -/
theorem log_level_mask_exceeds_15 :
    logLevelOf 0x1f = 31 ∧ ¬ logLevelOf 0x1f ≤ 15 ∧ logLevelOf 16 = 16 := by
  decide

/-- C6: DS_LOG_LEVEL_MASK keeps the lower 5 bits: for every value v the level number
v & DS_LOG_LEVEL_MASK is at most 31, and 31 is reached, so 31 is the largest level number
the mask can represent; each of the levels 0..15 is read back exactly, also when override
flags accompany it. -/
theorem log_level_mask_bound :
    DS_LOG_LEVEL_MASK = 2 ^ 5 - 1 ∧
    (∀ v : Nat, logLevelOf v ≤ 31) ∧
    logLevelOf 0x1f = 31 ∧
    (∀ (l : Nat) (sel : List Bool), l ≤ 15 →
      logLevelOf l = l ∧ logLevelOf (l ||| combine logLevelOverrideFlags sel) = l) := by
  refine ⟨rfl, fun v => Nat.and_le_right, by decide, ?_⟩
  intro l sel hl
  have hlt : l < 2 ^ 5 := Nat.lt_of_le_of_lt hl (by decide)
  have hself : logLevelOf l = l := Nat.and_pow_two_sub_one_of_lt_two_pow hlt
  have h1 : logLevelOf (l ||| combine logLevelOverrideFlags sel) = logLevelOf l :=
    or_and_of_and_eq_zero _ _ _ (combine_and_eq_zero _ _ _ (by decide))
  exact ⟨hself, by rw [h1, hself]⟩

/-- Witness for C6: level 15 with the flags DS_LOG_LEVEL_NO_TIMESTAMP and
DS_LOG_LEVEL_OUTPUT_CONSOLE. -/
theorem log_level_mask_bound_witness :
    (15 : Nat) ≤ 15 ∧
    logLevelOf (15 ||| combine logLevelOverrideFlags
        [false, true, false, false, false, false, true]) = 15 :=
  ⟨by decide,
   (log_level_mask_bound.2.2.2 15 [false, true, false, false, false, false, true]
     (by decide)).2⟩

/-- C7: DS_LOG_LEVEL_OUTPUT_FILE_CONSOLE is the OR of DS_LOG_LEVEL_OUTPUT_FILE and
DS_LOG_LEVEL_OUTPUT_CONSOLE; a value contains the whole combination exactly when both
bits test as set, and a value carrying only one of the two bits yields that bit alone
under the combined mask, which differs from the combination. -/
theorem output_file_console_is_both_bits :
    DS_LOG_LEVEL_OUTPUT_FILE_CONSOLE
      = DS_LOG_LEVEL_OUTPUT_FILE ||| DS_LOG_LEVEL_OUTPUT_CONSOLE ∧
    (∀ v : Nat,
      (v &&& DS_LOG_LEVEL_OUTPUT_FILE_CONSOLE = DS_LOG_LEVEL_OUTPUT_FILE_CONSOLE ↔
        (flagSet v DS_LOG_LEVEL_OUTPUT_FILE = true ∧
          flagSet v DS_LOG_LEVEL_OUTPUT_CONSOLE = true))) ∧
    (∀ v : Nat, flagSet v DS_LOG_LEVEL_OUTPUT_FILE = true →
      flagSet v DS_LOG_LEVEL_OUTPUT_CONSOLE = false →
      v &&& DS_LOG_LEVEL_OUTPUT_FILE_CONSOLE = DS_LOG_LEVEL_OUTPUT_FILE) ∧
    (∀ v : Nat, flagSet v DS_LOG_LEVEL_OUTPUT_FILE = false →
      flagSet v DS_LOG_LEVEL_OUTPUT_CONSOLE = true →
      v &&& DS_LOG_LEVEL_OUTPUT_FILE_CONSOLE = DS_LOG_LEVEL_OUTPUT_CONSOLE) ∧
    DS_LOG_LEVEL_OUTPUT_FILE ≠ DS_LOG_LEVEL_OUTPUT_FILE_CONSOLE ∧
    DS_LOG_LEVEL_OUTPUT_CONSOLE ≠ DS_LOG_LEVEL_OUTPUT_FILE_CONSOLE := by
  have split : ∀ v : Nat, v &&& DS_LOG_LEVEL_OUTPUT_FILE_CONSOLE
      = (v &&& DS_LOG_LEVEL_OUTPUT_FILE) ||| (v &&& DS_LOG_LEVEL_OUTPUT_CONSOLE) :=
    fun v => Nat.and_or_distrib_left _ _ _
  have hf : ∀ v : Nat, v &&& DS_LOG_LEVEL_OUTPUT_FILE = 0 ∨
      v &&& DS_LOG_LEVEL_OUTPUT_FILE = DS_LOG_LEVEL_OUTPUT_FILE :=
    fun v => and_two_pow_cases v 14
  have hc : ∀ v : Nat, v &&& DS_LOG_LEVEL_OUTPUT_CONSOLE = 0 ∨
      v &&& DS_LOG_LEVEL_OUTPUT_CONSOLE = DS_LOG_LEVEL_OUTPUT_CONSOLE :=
    fun v => and_two_pow_cases v 18
  refine ⟨rfl, ?_, ?_, ?_, by decide, by decide⟩
  · intro v
    rw [split v]
    unfold flagSet
    rcases hf v with h1 | h1 <;> rcases hc v with h2 | h2 <;> rw [h1, h2] <;> decide
  · intro v
    rw [split v]
    unfold flagSet
    rcases hf v with h1 | h1 <;> rcases hc v with h2 | h2 <;> rw [h1, h2] <;> decide
  · intro v
    rw [split v]
    unfold flagSet
    rcases hf v with h1 | h1 <;> rcases hc v with h2 | h2 <;> rw [h1, h2] <;> decide

/-- Witness for C7: level 6 with only the force-file bit (0x4006). -/
theorem output_file_console_is_both_bits_witness :
    flagSet 0x4006 DS_LOG_LEVEL_OUTPUT_FILE = true ∧
    flagSet 0x4006 DS_LOG_LEVEL_OUTPUT_CONSOLE = false ∧
    0x4006 &&& DS_LOG_LEVEL_OUTPUT_FILE_CONSOLE = DS_LOG_LEVEL_OUTPUT_FILE :=
  ⟨by decide, by decide,
   output_file_console_is_both_bits.2.2.1 0x4006 (by decide) (by decide)⟩

/-- C8: no general debug flag shares a bit with a pktlib or streamlib flag, so setting
(m | g) or clearing (m & ~g) any combination g of general flags in a uDebugMode value m
changes neither the test of a single pktlib or streamlib flag nor the bits read through
any mask built from pktlib or streamlib flags. -/
theorem general_debug_flags_disjoint_from_lib_flags :
    (∀ g ∈ generalFlags, ∀ p ∈ pktlibFlags ++ streamlibFlags, g &&& p = 0) ∧
    (∀ (m : Nat) (sel : List Bool), ∀ p ∈ pktlibFlags ++ streamlibFlags,
      (m ||| combine generalFlags sel) &&& p = m &&& p ∧
      (m &&& not32 (combine generalFlags sel)) &&& p = m &&& p) ∧
    (∀ (m : Nat) (sel lib : List Bool),
      (m ||| combine generalFlags sel) &&& combine pktlibFlags lib
        = m &&& combine pktlibFlags lib ∧
      (m &&& not32 (combine generalFlags sel)) &&& combine pktlibFlags lib
        = m &&& combine pktlibFlags lib ∧
      (m ||| combine generalFlags sel) &&& combine streamlibFlags lib
        = m &&& combine streamlibFlags lib ∧
      (m &&& not32 (combine generalFlags sel)) &&& combine streamlibFlags lib
        = m &&& combine streamlibFlags lib) := by
  have hp : ∀ g ∈ generalFlags, ∀ p ∈ pktlibFlags, g &&& p = 0 := by decide
  have hs : ∀ g ∈ generalFlags, ∀ p ∈ streamlibFlags, g &&& p = 0 := by decide
  refine ⟨general_disjoint_lib, ?_, ?_⟩
  · intro m sel p hmem
    have h0 : combine generalFlags sel &&& p = 0 :=
      combine_and_eq_zero _ _ _ (fun g hg => general_disjoint_lib g hg p hmem)
    have hlt : p < 2 ^ 32 :=
      (show ∀ q ∈ pktlibFlags ++ streamlibFlags, q < 2 ^ 32 by decide) p hmem
    exact ⟨or_and_of_and_eq_zero _ _ _ h0, and_not32_and _ _ _ hlt h0⟩
  · intro m sel lib
    have h1 : combine generalFlags sel &&& combine pktlibFlags lib = 0 :=
      combine_and_combine_eq_zero _ _ _ _ hp
    have h2 : combine generalFlags sel &&& combine streamlibFlags lib = 0 :=
      combine_and_combine_eq_zero _ _ _ _ hs
    have l1 : combine pktlibFlags lib < 2 ^ 32 := combine_lt _ _ _ (by decide)
    have l2 : combine streamlibFlags lib < 2 ^ 32 := combine_lt _ _ _ (by decide)
    exact ⟨or_and_of_and_eq_zero _ _ _ h1, and_not32_and _ _ _ l1 h1,
      or_and_of_and_eq_zero _ _ _ h2, and_not32_and _ _ _ l2 h2⟩

/-- Witness for C8: setting and clearing DS_SHOW_MALLOC_STATS and
DS_ENABLE_MANAGE_SESSION_STATS in the value 0x9203 leaves the test of
DS_LOG_JITTER_BUFFER unchanged. -/
theorem general_debug_flags_disjoint_from_lib_flags_witness :
    DS_LOG_JITTER_BUFFER ∈ pktlibFlags ++ streamlibFlags ∧
    ((0x9203 ||| combine generalFlags [true, false, false, true]) &&& DS_LOG_JITTER_BUFFER
        = 0x9203 &&& DS_LOG_JITTER_BUFFER ∧
      (0x9203 &&& not32 (combine generalFlags [true, false, false, true]))
          &&& DS_LOG_JITTER_BUFFER
        = 0x9203 &&& DS_LOG_JITTER_BUFFER) :=
  ⟨by decide,
   general_debug_flags_disjoint_from_lib_flags.2.1 0x9203 [true, false, false, true]
     DS_LOG_JITTER_BUFFER (by decide)⟩

/-- C9: each streamlib debug flag has the value of a pktlib debug flag, so in every
uDebugMode value it tests as set exactly when that pktlib flag does; inside the pktlib
vocabulary, and inside the streamlib vocabulary, the flags are pairwise distinct single
bits. -/
theorem streamlib_flags_reuse_pktlib_values :
    (DS_INJECT_XCODER_OUTPUT_SINEWAV = DS_JB_DISABLE ∧
      DS_INJECT_FLC_OUTPUT_LEVEL = DS_VAU_DISABLE ∧
      DS_INJECT_GROUP_OUTPUT_MARKERS = DS_ECU_DISABLE ∧
      DS_INJECT_GROUP_TIMING_MARKERS = DS_TDU_DISABLE ∧
      DS_INJECT_GROUP_ALIGNMENT_MARKERS = DS_TGE_DISABLE) ∧
    (∀ m : Nat,
      flagSet m DS_INJECT_XCODER_OUTPUT_SINEWAV = flagSet m DS_JB_DISABLE ∧
      flagSet m DS_INJECT_FLC_OUTPUT_LEVEL = flagSet m DS_VAU_DISABLE ∧
      flagSet m DS_INJECT_GROUP_OUTPUT_MARKERS = flagSet m DS_ECU_DISABLE ∧
      flagSet m DS_INJECT_GROUP_TIMING_MARKERS = flagSet m DS_TDU_DISABLE ∧
      flagSet m DS_INJECT_GROUP_ALIGNMENT_MARKERS = flagSet m DS_TGE_DISABLE) ∧
    (∀ s ∈ streamlibFlags, s ∈ pktlibFlags) ∧
    pktlibFlags.Nodup ∧ (∀ x ∈ pktlibFlags, IsSingleBit x) ∧
    streamlibFlags.Nodup ∧ (∀ x ∈ streamlibFlags, IsSingleBit x) := by
  refine ⟨⟨rfl, rfl, rfl, rfl, rfl⟩, fun m => ⟨rfl, rfl, rfl, rfl, rfl⟩, by decide,
    by decide, by decide, by decide, by decide⟩

/-- Witness for C9: DS_INJECT_GROUP_TIMING_MARKERS is a member of the streamlib
vocabulary, has the value of a pktlib flag and is a single bit. -/
theorem streamlib_flags_reuse_pktlib_values_witness :
    DS_INJECT_GROUP_TIMING_MARKERS ∈ streamlibFlags ∧
    DS_INJECT_GROUP_TIMING_MARKERS ∈ pktlibFlags ∧
    IsSingleBit DS_INJECT_GROUP_TIMING_MARKERS :=
  ⟨by decide,
   streamlib_flags_reuse_pktlib_values.2.2.1 DS_INJECT_GROUP_TIMING_MARKERS (by decide),
   streamlib_flags_reuse_pktlib_values.2.2.2.2.2.2 DS_INJECT_GROUP_TIMING_MARKERS
     (by decide)⟩

/-- C10: two images of a GLOBAL_CONFIG (any build) or of a base DEBUG_CONFIG that agree
on every bit outside the reserved members (the bit-fields reserved, reserved1, reserved2
and the whole words reserved3, uReserved1..uReserved9) decode to the same value for every
named member, in the big-endian and in the little-endian field order; in particular
overwriting a whole reserved word changes no named member. -/
theorem reserved_bits_leave_named_fields_unchanged :
    (∀ (e : Endian) (b : Build) (ws1 ws2 : List Nat),
      DifferOnlyInReserved e (GLOBAL_CONFIG e b) GlobalField.isReserved ws1 ws2 →
      ∀ f : GlobalField, f.isReserved = false →
        GLOBAL_CONFIG_decode e b ws1 f = GLOBAL_CONFIG_decode e b ws2 f) ∧
    (∀ (e : Endian) (ws1 ws2 : List Nat),
      DifferOnlyInReserved e (DEBUG_CONFIG e) DebugField.isReserved ws1 ws2 →
      ∀ f : DebugField, f.isReserved = false →
        DEBUG_CONFIG_decode e ws1 f = DEBUG_CONFIG_decode e ws2 f) ∧
    (∀ (e : Endian) (b : Build) (ws : List Nat) (r : GlobalField) (s : Slot GlobalField)
      (v : Nat), r.isReserved = true → slotOf e (GLOBAL_CONFIG e b) r = some s →
      s.width = 32 → ∀ f : GlobalField, f.isReserved = false →
        GLOBAL_CONFIG_decode e b (ws.set s.word v) f = GLOBAL_CONFIG_decode e b ws f) ∧
    (∀ (e : Endian) (ws : List Nat) (r : DebugField) (s : Slot DebugField) (v : Nat),
      r.isReserved = true → slotOf e (DEBUG_CONFIG e) r = some s → s.width = 32 →
      ∀ f : DebugField, f.isReserved = false →
        DEBUG_CONFIG_decode e (ws.set s.word v) f = DEBUG_CONFIG_decode e ws f) := by
  refine ⟨?_, ?_, ?_, ?_⟩
  · intro e b ws1 ws2 hd f hf
    exact decode_frame e _ _ ws1 ws2 (GLOBAL_CONFIG_layout_ok e b).1
      (GLOBAL_CONFIG_layout_ok e b).2 hd f hf
  · intro e ws1 ws2 hd f hf
    exact decode_frame e _ _ ws1 ws2 (DEBUG_CONFIG_layout_ok e).1
      (DEBUG_CONFIG_layout_ok e).2 hd f hf
  · intro e b ws r s v hr hs hw f hf
    exact (decode_frame e _ _ ws (ws.set s.word v) (GLOBAL_CONFIG_layout_ok e b).1
      (GLOBAL_CONFIG_layout_ok e b).2
      (differOnly_set e _ _ ws (GLOBAL_CONFIG_layout_ok e b).2 r s hs hr hw v) f hf).symm
  · intro e ws r s v hr hs hw f hf
    exact (decode_frame e _ _ ws (ws.set s.word v) (DEBUG_CONFIG_layout_ok e).1
      (DEBUG_CONFIG_layout_ok e).2
      (differOnly_set e _ _ ws (DEBUG_CONFIG_layout_ok e).2 r s hs hr hw v) f hf).symm

/-- Witness for C10: the two images above differ exactly in reserved1, reserved2 and
reserved3, and uLoopbackLevel decodes to the same value from both; overwriting the word
reserved3 (word 4) leaves uAMRPackingFormat as it was. -/
theorem reserved_bits_leave_named_fields_unchanged_witness :
    DifferOnlyInReserved Endian.big (DEBUG_CONFIG Endian.big) DebugField.isReserved
      debugImage debugImageReservedSet ∧
    debugImage ≠ debugImageReservedSet ∧
    DEBUG_CONFIG_decode Endian.big debugImage DebugField.uLoopbackLevel
      = DEBUG_CONFIG_decode Endian.big debugImageReservedSet DebugField.uLoopbackLevel ∧
    DEBUG_CONFIG_decode Endian.little (debugImage.set 4 0xdeadbeef)
        DebugField.uAMRPackingFormat
      = DEBUG_CONFIG_decode Endian.little debugImage DebugField.uAMRPackingFormat :=
  have hd : DifferOnlyInReserved Endian.big (DEBUG_CONFIG Endian.big) DebugField.isReserved
      debugImage debugImageReservedSet := by
    intro k i hi
    rcases k with _ | _ | _ | _ | _ | k
    · intro _; rfl
    · interval_cases i <;> decide
    · intro _; rfl
    · interval_cases i <;> decide
    · interval_cases i <;> decide
    · intro _; rfl
  ⟨hd, by decide,
   reserved_bits_leave_named_fields_unchanged.2.1 Endian.big debugImage
     debugImageReservedSet hd DebugField.uLoopbackLevel rfl,
   reserved_bits_leave_named_fields_unchanged.2.2.2 Endian.little debugImage
     DebugField.reserved3 ⟨DebugField.reserved3, 4, 0, 32⟩ 0xdeadbeef rfl rfl rfl
     DebugField.uAMRPackingFormat rfl⟩

/-- C11: DS_EVENT_LOG_UPTIME_TIMESTAMPS has the value 0, so OR-ing it into a
uEventLogMode value changes nothing and it never tests as set. -/
theorem uptime_timestamps_flag_is_noop :
    DS_EVENT_LOG_UPTIME_TIMESTAMPS = 0 ∧
    (∀ m : Nat,
      m ||| DS_EVENT_LOG_UPTIME_TIMESTAMPS = m ∧
      m &&& DS_EVENT_LOG_UPTIME_TIMESTAMPS = 0 ∧
      flagSet m DS_EVENT_LOG_UPTIME_TIMESTAMPS = false) := by
  refine ⟨rfl, fun m => ⟨Nat.or_zero m, Nat.and_zero m, ?_⟩⟩
  show (m &&& 0 != 0) = false
  rw [Nat.and_zero]
  rfl

/-- C12: in every 32-bit word of GLOBAL_CONFIG (any build) and of the base DEBUG_CONFIG,
under both field orders, the widths of the members living in the word sum to 32 and every
bit of the word belongs to exactly one member; the size does not depend on the field
order; the host-class GLOBAL_CONFIG is 20 words whose last nine (words 11..19) are
uReserved1..uReserved9, and the base DEBUG_CONFIG is 5 words. -/
theorem records_are_exactly_filled :
    (∀ (e : Endian) (b : Build), ∀ k < sizeWords (GLOBAL_CONFIG e b),
      widthSum (layout e (GLOBAL_CONFIG e b)) k = 32 ∧
      ∀ i < 32, coverCount (layout e (GLOBAL_CONFIG e b)) k i = 1) ∧
    (∀ (e : Endian), ∀ k < sizeWords (DEBUG_CONFIG e),
      widthSum (layout e (DEBUG_CONFIG e)) k = 32 ∧
      ∀ i < 32, coverCount (layout e (DEBUG_CONFIG e)) k i = 1) ∧
    (∀ b : Build,
      sizeWords (GLOBAL_CONFIG Endian.big b) = sizeWords (GLOBAL_CONFIG Endian.little b)) ∧
    (∀ e : Endian, sizeWords (GLOBAL_CONFIG e hostBuild) = 20) ∧
    (∀ (e : Endian) (vals : GlobalField → Nat),
      (GLOBAL_CONFIG_encode e hostBuild vals).length = 20) ∧
    (∀ e : Endian,
      (layout e (GLOBAL_CONFIG e hostBuild)).filter (fun s => decide (11 ≤ s.word))
        = [⟨GlobalField.uReserved1, 11, 0, 32⟩, ⟨GlobalField.uReserved2, 12, 0, 32⟩,
           ⟨GlobalField.uReserved3, 13, 0, 32⟩, ⟨GlobalField.uReserved4, 14, 0, 32⟩,
           ⟨GlobalField.uReserved5, 15, 0, 32⟩, ⟨GlobalField.uReserved6, 16, 0, 32⟩,
           ⟨GlobalField.uReserved7, 17, 0, 32⟩, ⟨GlobalField.uReserved8, 18, 0, 32⟩,
           ⟨GlobalField.uReserved9, 19, 0, 32⟩]) ∧
    (∀ e : Endian, sizeWords (DEBUG_CONFIG e) = 5) ∧
    (∀ (e : Endian) (vals : DebugField → Nat), (DEBUG_CONFIG_encode e vals).length = 5) := by
  refine ⟨?_, ?_, ?_, ?_, ?_, ?_, ?_, ?_⟩
  · intro e b
    rcases b with ⟨_ | _, _ | _⟩ <;> cases e <;> decide
  · intro e
    cases e <;> decide
  · intro b
    rcases b with ⟨_ | _, _ | _⟩ <;> rfl
  · intro e
    cases e <;> rfl
  · intro e vals
    cases e <;> simp [GLOBAL_CONFIG_encode, encode] <;> rfl
  · intro e
    cases e <;> rfl
  · intro e
    cases e <;> rfl
  · intro e vals
    cases e <;> simp [DEBUG_CONFIG_encode, encode] <;> rfl

/-- Witness for C12: word 3 of the big-endian host-class GLOBAL_CONFIG (reserved : 24 and
uPreserve_SSRC : 8) is exactly filled, and its bit 8 belongs to one member. -/
theorem records_are_exactly_filled_witness :
    3 < sizeWords (GLOBAL_CONFIG Endian.big hostBuild) ∧
    widthSum (layout Endian.big (GLOBAL_CONFIG Endian.big hostBuild)) 3 = 32 ∧
    coverCount (layout Endian.big (GLOBAL_CONFIG Endian.big hostBuild)) 3 8 = 1 :=
  ⟨by decide,
   (records_are_exactly_filled.1 Endian.big hostBuild 3 (by decide)).1,
   (records_are_exactly_filled.1 Endian.big hostBuild 3 (by decide)).2 8 (by decide)⟩

/-- C13: a uEventLogMode value with both DS_EVENT_LOG_TIMEVAL_PRECISION_USEC and
DS_EVENT_LOG_TIMEVAL_PRECISION_MSEC set resolves to microsecond formatting, the same
precision as the mode with the MSEC flag cleared (only USEC set). -/
theorem both_precision_flags_resolve_to_usec (m : Nat)
    (hu : flagSet m DS_EVENT_LOG_TIMEVAL_PRECISION_USEC = true)
    (_hm : flagSet m DS_EVENT_LOG_TIMEVAL_PRECISION_MSEC = true) :
    resolvePrecision m = TimevalPrecision.usec ∧
    flagSet (m &&& not32 DS_EVENT_LOG_TIMEVAL_PRECISION_MSEC)
      DS_EVENT_LOG_TIMEVAL_PRECISION_MSEC = false ∧
    flagSet (m &&& not32 DS_EVENT_LOG_TIMEVAL_PRECISION_MSEC)
      DS_EVENT_LOG_TIMEVAL_PRECISION_USEC = true ∧
    resolvePrecision m
      = resolvePrecision (m &&& not32 DS_EVENT_LOG_TIMEVAL_PRECISION_MSEC) := by
  have h1 : resolvePrecision m = TimevalPrecision.usec := by
    unfold resolvePrecision
    rw [if_pos hu]
  have h2 : flagSet (m &&& not32 DS_EVENT_LOG_TIMEVAL_PRECISION_MSEC)
      DS_EVENT_LOG_TIMEVAL_PRECISION_USEC = true := by
    unfold flagSet at hu ⊢
    rw [and_not32_and m _ _ (by decide) (by decide)]
    exact hu
  have h3 : flagSet (m &&& not32 DS_EVENT_LOG_TIMEVAL_PRECISION_MSEC)
      DS_EVENT_LOG_TIMEVAL_PRECISION_MSEC = false := by
    have := and_not32_self m DS_EVENT_LOG_TIMEVAL_PRECISION_MSEC
    unfold flagSet
    have hmod : DS_EVENT_LOG_TIMEVAL_PRECISION_MSEC % 2 ^ 32
        = DS_EVENT_LOG_TIMEVAL_PRECISION_MSEC := by decide
    rw [hmod] at this
    rw [this]
    rfl
  refine ⟨h1, h3, h2, ?_⟩
  rw [h1]
  unfold resolvePrecision
  rw [if_pos h2]

/-- Witness for C13: the mode DS_EVENT_LOG_APPEND with both precision flags (0x608). -/
theorem both_precision_flags_resolve_to_usec_witness :
    flagSet 0x608 DS_EVENT_LOG_TIMEVAL_PRECISION_USEC = true ∧
    flagSet 0x608 DS_EVENT_LOG_TIMEVAL_PRECISION_MSEC = true ∧
    resolvePrecision 0x608 = TimevalPrecision.usec :=
  ⟨by decide, by decide,
   (both_precision_flags_resolve_to_usec 0x608 (by decide) (by decide)).1⟩

/-- C14: the nine DS_LOG_LEVEL_xx override flags are pairwise distinct single bits, all
above bit 4; two selections among the nine flags have the same OR exactly when they are
the same selection, and testing each flag in a log-level value made of a level number
(at most 31) and a selection returns that selection. -/
theorem override_flags_recovered_uniquely :
    logLevelOverrideFlags.Nodup ∧
    (∀ x ∈ logLevelOverrideFlags,
      IsSingleBit x ∧ 2 ^ 5 ≤ x ∧ x &&& DS_LOG_LEVEL_MASK = 0) ∧
    (∀ a b : List Bool, a.length = 9 → b.length = 9 →
      (combine logLevelOverrideFlags a = combine logLevelOverrideFlags b ↔ a = b)) ∧
    (∀ (l : Nat) (a : List Bool), l ≤ 31 → a.length = 9 →
      testFlags logLevelOverrideFlags (l ||| combine logLevelOverrideFlags a) = a ∧
      logLevelOf (l ||| combine logLevelOverrideFlags a) = l) := by
  have hpair : logLevelOverrideFlags.Pairwise (fun a b => a &&& b = 0) := by decide
  have hnz : ∀ x ∈ logLevelOverrideFlags, x ≠ 0 := by decide
  have hmask : ∀ x ∈ logLevelOverrideFlags, x &&& (2 ^ 5 - 1) = 0 := by decide
  have hrec : ∀ a : List Bool, a.length = 9 →
      testFlags logLevelOverrideFlags (combine logLevelOverrideFlags a) = a :=
    fun a ha => testFlags_combine _ a hpair hnz ha
  refine ⟨by decide, by decide, ?_, ?_⟩
  · intro a b ha hb
    constructor
    · intro h
      rw [← hrec a ha, ← hrec b hb, h]
    · intro h
      rw [h]
  · intro l a hl ha
    have hlt : l < 2 ^ 5 := Nat.lt_succ_of_le hl
    constructor
    · rw [testFlags_or_of_disjoint _ l _
        (fun f hf => and_eq_zero_of_lt_mask l f 5 hlt (hmask f hf))]
      exact hrec a ha
    · have h1 : logLevelOf (l ||| combine logLevelOverrideFlags a) = l &&& (2 ^ 5 - 1) :=
        or_and_of_and_eq_zero _ _ _ (combine_and_eq_zero _ _ _ hmask)
      rw [h1]
      exact Nat.and_pow_two_sub_one_of_lt_two_pow hlt

/-- Witness for C14: level 6 with DS_LOG_LEVEL_NO_TIMESTAMP and DS_LOG_LEVEL_USE_STDERR. -/
theorem override_flags_recovered_uniquely_witness :
    (6 : Nat) ≤ 31 ∧
    [false, true, false, false, false, false, false, false, true].length = 9 ∧
    testFlags logLevelOverrideFlags
        (6 ||| combine logLevelOverrideFlags
          [false, true, false, false, false, false, false, false, true])
      = [false, true, false, false, false, false, false, false, true] :=
  ⟨by decide, rfl,
   (override_flags_recovered_uniquely.2.2.2 6
     [false, true, false, false, false, false, false, false, true] (by decide) rfl).1⟩

/-- C15: the seven non-zero EVENT_LOG_MODE flags are pairwise distinct single bits and
none of them shares a bit with the mask 0x3 of the low values 0-3, so setting or clearing
any combination of them leaves the low two bits of a mode unchanged, and setting or
clearing one flag does not change how another flag tests. -/
theorem event_log_mode_flags_independent :
    eventLogModeFlags.Nodup ∧
    (∀ x ∈ eventLogModeFlags, x ≠ 0 ∧ IsSingleBit x ∧ x &&& LOG_xx_mask = 0) ∧
    (∀ (m : Nat) (sel : List Bool),
      (m ||| combine eventLogModeFlags sel) &&& LOG_xx_mask = m &&& LOG_xx_mask ∧
      (m &&& not32 (combine eventLogModeFlags sel)) &&& LOG_xx_mask = m &&& LOG_xx_mask) ∧
    (∀ m : Nat, ∀ f ∈ eventLogModeFlags, ∀ g ∈ eventLogModeFlags, f ≠ g →
      flagSet (m ||| f) g = flagSet m g ∧ flagSet (m &&& not32 f) g = flagSet m g) := by
  refine ⟨by decide, by decide, ?_, ?_⟩
  · intro m sel
    have h0 : combine eventLogModeFlags sel &&& LOG_xx_mask = 0 :=
      combine_and_eq_zero _ _ _ (by decide)
    exact ⟨or_and_of_and_eq_zero _ _ _ h0, and_not32_and _ _ _ (by decide) h0⟩
  · intro m f hf g hg hne
    have hdis : f &&& g = 0 :=
      (show ∀ x ∈ eventLogModeFlags, ∀ y ∈ eventLogModeFlags, x ≠ y → x &&& y = 0 by decide)
        f hf g hg hne
    have hlt : g < 2 ^ 32 := (show ∀ y ∈ eventLogModeFlags, y < 2 ^ 32 by decide) g hg
    unfold flagSet
    rw [or_and_of_and_eq_zero m f g hdis, and_not32_and m f g hlt hdis]
    exact ⟨rfl, rfl⟩

/-- Witness for C15: in the mode 0x243, setting or clearing DS_EVENT_LOG_WALLCLOCK_TIMESTAMPS
does not change the test of DS_EVENT_LOG_TIMEVAL_PRECISION_USEC. -/
theorem event_log_mode_flags_independent_witness :
    DS_EVENT_LOG_WALLCLOCK_TIMESTAMPS ∈ eventLogModeFlags ∧
    DS_EVENT_LOG_TIMEVAL_PRECISION_USEC ∈ eventLogModeFlags ∧
    DS_EVENT_LOG_WALLCLOCK_TIMESTAMPS ≠ DS_EVENT_LOG_TIMEVAL_PRECISION_USEC ∧
    (flagSet (0x243 ||| DS_EVENT_LOG_WALLCLOCK_TIMESTAMPS) DS_EVENT_LOG_TIMEVAL_PRECISION_USEC
        = flagSet 0x243 DS_EVENT_LOG_TIMEVAL_PRECISION_USEC ∧
      flagSet (0x243 &&& not32 DS_EVENT_LOG_WALLCLOCK_TIMESTAMPS)
          DS_EVENT_LOG_TIMEVAL_PRECISION_USEC
        = flagSet 0x243 DS_EVENT_LOG_TIMEVAL_PRECISION_USEC) :=
  ⟨by decide, by decide, by decide,
   event_log_mode_flags_independent.2.2.2 0x243 DS_EVENT_LOG_WALLCLOCK_TIMESTAMPS (by decide)
     DS_EVENT_LOG_TIMEVAL_PRECISION_USEC (by decide) (by decide)⟩

/-- C16: the four PACKET_STATS_LOGGING flags are pairwise distinct single bits whose OR
(0xf) is at most 0xff, so every combination of them stored in the uint8_t member
uPktStatsLogging is read back unchanged. -/
theorem packet_stats_flags_fit_uint8 :
    packetStatsLoggingFlags.Nodup ∧
    (∀ x ∈ packetStatsLoggingFlags, IsSingleBit x) ∧
    combine packetStatsLoggingFlags [true, true, true, true] ≤ 0xff ∧
    DEBUG_CONFIG_ext DebugExtField.uPktStatsLogging = CType.uint8_t ∧
    (∀ sel : List Bool,
      combine packetStatsLoggingFlags sel ≤ 0xff ∧
      DEBUG_CONFIG_ext_assign DebugExtField.uPktStatsLogging
          (combine packetStatsLoggingFlags sel)
        = combine packetStatsLoggingFlags sel) := by
  refine ⟨by decide, by decide, by decide, rfl, ?_⟩
  intro sel
  have hlt : combine packetStatsLoggingFlags sel < 2 ^ 8 := combine_lt 8 _ sel (by decide)
  exact ⟨Nat.le_of_lt_succ hlt, Nat.mod_eq_of_lt hlt⟩

/-- Witness for C16: the flag DS_ENABLE_PACKET_LOSS_STATS is a member of the vocabulary
and a single bit. -/
theorem packet_stats_flags_fit_uint8_witness :
    DS_ENABLE_PACKET_LOSS_STATS ∈ packetStatsLoggingFlags ∧
    IsSingleBit DS_ENABLE_PACKET_LOSS_STATS :=
  ⟨by decide,
   packet_stats_flags_fit_uint8.2.1 DS_ENABLE_PACKET_LOSS_STATS (by decide)⟩

/-- C17: in a zero-initialised base DEBUG_CONFIG the member uAMRPackingFormat decodes to
DS_IF1_NOCRC (0) in both field orders, hence not to DS_NO_OVERRIDE; DS_NO_OVERRIDE (4)
differs from each of the four packing formats and fits the 16-bit member, which returns
it unchanged when it is stored. -/
theorem zero_record_is_not_no_override :
    DS_IF1_NOCRC = 0 ∧ DS_NO_OVERRIDE = 4 ∧
    (∀ e : Endian,
      zeroImage (DEBUG_CONFIG e) = [0, 0, 0, 0, 0] ∧
      DEBUG_CONFIG_decode e (zeroImage (DEBUG_CONFIG e)) DebugField.uAMRPackingFormat
        = some DS_IF1_NOCRC ∧
      DEBUG_CONFIG_decode e (zeroImage (DEBUG_CONFIG e)) DebugField.uAMRPackingFormat
        ≠ some DS_NO_OVERRIDE) ∧
    (∀ p ∈ packingFormats, DS_NO_OVERRIDE ≠ p) ∧
    (∀ e : Endian,
      (slotOf e (DEBUG_CONFIG e) DebugField.uAMRPackingFormat).map (fun s => s.width)
        = some 16) ∧
    DS_NO_OVERRIDE < 2 ^ 16 ∧
    (∀ e : Endian,
      DEBUG_CONFIG_decode e
          (DEBUG_CONFIG_encode e
            (fun f => if f = DebugField.uAMRPackingFormat then DS_NO_OVERRIDE else 0))
          DebugField.uAMRPackingFormat
        = some DS_NO_OVERRIDE) := by
  refine ⟨rfl, rfl, ?_, by decide, ?_, by decide, ?_⟩
  · intro e
    cases e <;> decide
  · intro e
    cases e <;> rfl
  · intro e
    cases e <;> decide

/-- Witness for C17: DS_MMS_IO is one of the four packing formats and differs from
DS_NO_OVERRIDE. -/
theorem zero_record_is_not_no_override_witness :
    DS_MMS_IO ∈ packingFormats ∧ DS_NO_OVERRIDE ≠ DS_MMS_IO :=
  ⟨by decide, zero_record_is_not_no_override.2.2.2.1 DS_MMS_IO (by decide)⟩

end Config
